import Mathlib

/-!
Verification of the IMF gadget API (sm-imf-gadget-api).

Shallow embedding of the Express routes in src/routes/gadgets.js and
src/routes/auth.js together with the Sequelize Gadget model (its attribute
list and beforeUpdate hook). The database is modelled as an in-memory list
of gadget records; the process-wide pendingSelfDestructCodes object is an
association list from gadget id to code. Randomness (Math.random draws) is
passed in explicitly as natural-number draws; the current clock (new Date())
is passed in as a natural-number timestamp.
-/

namespace IMF

/-- The status ENUM of the Gadget model:
DataTypes.ENUM('Available', 'Deployed', 'Destroyed', 'Decommissioned'). -/
inductive GStatus where
  | available
  | deployed
  | destroyed
  | decommissioned
deriving DecidableEq, Repr

/-- A persisted Gadget row. Attributes follow the Gadget model definition:
id (UUID primary key), name (unique string), status (ENUM, default
Available), decommissionedAt (nullable DATE), plus the createdAt timestamp
Sequelize adds automatically. Timestamps are modelled as naturals and the
nullable DATE as an Option. -/
structure Gadget where
  id : String
  name : String
  status : GStatus
  decommissionedAt : Option Nat
  createdAt : Nat
deriving DecidableEq, Repr

/-- A PATCH /gadgets/:id request body (req.body), as the fields of it that
name declared Gadget attributes. Sequelize ignores keys of the body that are
not model attributes, so an arbitrary JSON body reduces to this shape. The
decommissionedAt entry is doubly optional: the body may omit the key, or
supply a date, or supply null. -/
structure UpdateBody where
  id : Option String := none
  name : Option String := none
  status : Option GStatus := none
  decommissionedAt : Option (Option Nat) := none
  createdAt : Option Nat := none
deriving Repr

/-- The attribute assignment performed by Sequelize's instance.update(values)
on an existing record, before hooks run. Two guards of Sequelize's
Model.prototype.set apply: an already-set primary key is never reassigned
(attempts to change id are ignored), and the read-only timestamp attributes
createdAt/updatedAt of a non-new record are never reassigned. The remaining
declared attributes (name, status, decommissionedAt) are assigned when the
body supplies them. -/
def Gadget.setValues (g : Gadget) (b : UpdateBody) : Gadget :=
  { g with
    name := b.name.getD g.name
    status := b.status.getD g.status
    decommissionedAt := b.decommissionedAt.getD g.decommissionedAt }

/-- The beforeUpdate hook of the Gadget model, run after attribute
assignment and before the row is saved:
if status is 'Decommissioned' and decommissionedAt is falsy, set it to the
current time; else if status is not 'Decommissioned', set it to null.
A JS Date object is always truthy, so falsy is exactly null here. -/
def beforeUpdate (now : Nat) (g : Gadget) : Gadget :=
  if g.status = .decommissioned ∧ g.decommissionedAt = none then
    { g with decommissionedAt := some now }
  else if g.status ≠ .decommissioned then
    { g with decommissionedAt := none }
  else g

/-- gadget.update(values) on an existing instance: assign the supplied
values, then run the beforeUpdate hook (Sequelize persists hook-made changes
too: fields changed by the hook are added to the saved field set). -/
def instanceUpdate (g : Gadget) (b : UpdateBody) (now : Nat) : Gadget :=
  beforeUpdate now (g.setValues b)

/-- The error taxonomy of the routes, by HTTP status code. -/
inductive ApiError where
  | badRequest
  | unauthenticated
  | forbidden
  | notFound
  | internal
deriving DecidableEq, Repr

/-- HTTP status code of each error. -/
def ApiError.httpStatus : ApiError → Nat
  | .badRequest => 400
  | .unauthenticated => 401
  | .forbidden => 403
  | .notFound => 404
  | .internal => 500

/-- Process state touched by the gadget routes: the Gadget table and the
in-memory pendingSelfDestructCodes object (gadget id to code). -/
structure ApiState where
  gadgets : List Gadget
  pendingCodes : List (String × String)
deriving Repr

/-- Gadget.findByPk(id): the row whose primary key equals id. -/
def findByPk (st : ApiState) (id : String) : Option Gadget :=
  st.gadgets.find? (fun g => g.id = id)

/-- Read pendingSelfDestructCodes[id]. -/
def getCode (ps : List (String × String)) (id : String) : Option String :=
  (ps.find? (fun p => p.1 = id)).map (fun p => p.2)

/-- Remove the entry for id (delete pendingSelfDestructCodes[id]). -/
def removeCode (ps : List (String × String)) (id : String) :
    List (String × String) :=
  ps.filter (fun p => p.1 ≠ id)

/-- Write pendingSelfDestructCodes[id] = code, overwriting any prior entry
for that id. -/
def setCode (ps : List (String × String)) (id code : String) :
    List (String × String) :=
  (id, code) :: removeCode ps id

/-- Persist an updated row: the row with the given primary key is replaced
by the updated instance (instance.save issues UPDATE ... WHERE id = :id). -/
def replaceById (gs : List Gadget) (id : String) (g' : Gadget) : List Gadget :=
  gs.map (fun g => if g.id = id then g' else g)

/-- The noun vocabulary of generateCodename. -/
def nouns : List String :=
  ["Nightingale", "Kraken", "Phantom", "Vortex", "Specter",
   "Maverick", "Intruder", "Cipher", "Operative", "Shadow",
   "Saboteur", "Viper", "Agent", "Enigma"]

/-- generateCodename: pick nouns[Math.floor(Math.random() * nouns.length)]
and format as "The [Noun]". The random draw r is supplied; the JS index
expression lands uniformly in [0, nouns.length), modelled as r mod the
vocabulary size. -/
def generateCodename (r : Nat) : String :=
  "The " ++ nouns.getD (r % nouns.length) ""

/-- generateUniqueCodename: regenerate while a gadget with the candidate
name exists. The source loop is unbounded; fuel bounds the recursion here
and none models non-termination (every name taken forever). rand supplies
the successive random draws. -/
def generateUniqueCodename (fuel : Nat) (rand : Nat → Nat)
    (gs : List Gadget) : Option String :=
  match fuel with
  | 0 => none
  | fuel + 1 =>
    let codename := generateCodename (rand 0)
    if gs.any (fun g => g.name = codename) then
      generateUniqueCodename fuel (fun n => rand (n + 1)) gs
    else
      some codename

/-- POST /gadgets: the route never reads req.body (the request body is
ignored entirely); it generates a unique codename and persists a gadget
with that name and status 'Available'. newId is the UUID the model default
generates; now is the creation clock reading. Returns 201 with the created
record, or 400 on failure. -/
def createGadget (st : ApiState) (fuel : Nat) (rand : Nat → Nat)
    (newId : String) (now : Nat) (_reqBody : UpdateBody) :
    Except ApiError Gadget × ApiState :=
  match generateUniqueCodename fuel rand st.gadgets with
  | none => (.error .badRequest, st)
  | some name =>
    let g : Gadget :=
      { id := newId, name := name, status := .available,
        decommissionedAt := none, createdAt := now }
    (.ok g, { st with gadgets := st.gadgets ++ [g] })

/-- PATCH /gadgets/:id: 404 if findByPk misses, otherwise
gadget.update(req.body) and 200 with the updated record. -/
def patchGadget (st : ApiState) (id : String) (b : UpdateBody) (now : Nat) :
    Except ApiError Gadget × ApiState :=
  match findByPk st id with
  | none => (.error .notFound, st)
  | some g =>
    let g' := instanceUpdate g b now
    (.ok g', { st with gadgets := replaceById st.gadgets id g' })

/-- DELETE /gadgets/:id: 404 if findByPk misses, otherwise
gadget.update({ status: 'Decommissioned', decommissionedAt: new Date() })
and 200 with a message. -/
def decommissionGadget (st : ApiState) (id : String) (now : Nat) :
    Except ApiError String × ApiState :=
  match findByPk st id with
  | none => (.error .notFound, st)
  | some g =>
    let g' := instanceUpdate g
      { status := some .decommissioned, decommissionedAt := some (some now) }
      now
    (.ok "Gadget decommissioned",
     { st with gadgets := replaceById st.gadgets id g' })

/-- POST /gadgets/:id/self-destruct/generate-code: 404 if findByPk misses;
otherwise generate (Math.floor(Math.random() * 90000) + 10000).toString(),
store it in pendingSelfDestructCodes[id], and return it. rand is the random
draw; the JS expression lands uniformly in [10000, 99999], modelled as
rand mod 90000 plus 10000. -/
def generateSelfDestructCode (st : ApiState) (id : String) (rand : Nat) :
    Except ApiError String × ApiState :=
  match findByPk st id with
  | none => (.error .notFound, st)
  | some _ =>
    let confirmationCode := toString (rand % 90000 + 10000)
    (.ok confirmationCode,
     { st with pendingCodes := setCode st.pendingCodes id confirmationCode })

/-- POST /gadgets/:id/self-destruct: read pendingSelfDestructCodes[id];
400 if absent; 403 if the supplied code differs from it; 404 if findByPk
then misses; otherwise gadget.update({ status: 'Destroyed' }), delete the
pending entry, and 200. Error branches return the state untouched. -/
def confirmSelfDestruct (st : ApiState) (id confirmationCode : String)
    (now : Nat) : Except ApiError String × ApiState :=
  match getCode st.pendingCodes id with
  | none => (.error .badRequest, st)
  | some storedCode =>
    if confirmationCode ≠ storedCode then
      (.error .forbidden, st)
    else
      match findByPk st id with
      | none => (.error .notFound, st)
      | some g =>
        let g' := instanceUpdate g { status := some .destroyed } now
        (.ok "Gadget self-destructed",
         { gadgets := replaceById st.gadgets id g',
           pendingCodes := removeCode st.pendingCodes id })

/-- Fold repeated confirm attempts over the state: each attempt's resulting
state feeds the next. -/
def confirmMany (st : ApiState) (id : String) (codes : List String)
    (now : Nat) : ApiState :=
  codes.foldl (fun s c => (confirmSelfDestruct s id c now).2) st

/-- Modelled from the spec: bcrypt password hashing performed by the User
model, whose file is absent from the sources (only its callers in
src/routes/auth.js are present). The spec says Register "stores a hash of
the password, never the plaintext". Hashing is modelled abstractly as an
injective encoding carrying a scheme tag, so that the stored value is a
hash of the password and never the password string itself. -/
def bcryptHash (password : String) : String :=
  "$2b$10$" ++ password

/-- Modelled from the spec: bcrypt.compare(password, storedHash) succeeds
exactly when hashing the supplied password reproduces the stored hash. -/
def bcryptCompare (password storedHash : String) : Bool :=
  storedHash = bcryptHash password

/-- A persisted User row: id, unique username, and the stored password
column (which holds the hash). -/
structure User where
  id : Nat
  username : String
  password : String
deriving DecidableEq, Repr

/-- The credential store: the User table. -/
structure AuthState where
  users : List User
deriving Repr

/-- User.findOne({ where: { username } }). -/
def findUser (st : AuthState) (username : String) : Option User :=
  st.users.find? (fun u => u.username = username)

/-- POST /auth/register: User.create({ username, password }) — fails with
400 when the username already exists (unique constraint); otherwise the
User model stores the hash of the password (its hashing hook is modelled
from the spec, see bcryptHash) and the route answers 201. -/
def registerUser (st : AuthState) (username password : String)
    (newId : Nat) : Except ApiError String × AuthState :=
  if st.users.any (fun u => u.username = username) then
    (.error .badRequest, st)
  else
    let u : User := { id := newId, username := username,
                      password := bcryptHash password }
    (.ok "User created", { users := st.users ++ [u] })

/-- POST /auth/login: find the user by username, 401 if absent; 401 if
bcrypt.compare(password, user.password) fails; otherwise 200 with a token
signed over the user id (modelled as returning that id). -/
def loginUser (st : AuthState) (username password : String) :
    Except ApiError Nat :=
  match findUser st username with
  | none => .error .unauthenticated
  | some user =>
    if bcryptCompare password user.password then
      .ok user.id
    else
      .error .unauthenticated

/-- A sample stored gadget used to instantiate the universally quantified
theorems below on concrete inputs. -/
def gSample : Gadget :=
  { id := "g1", name := "The Kraken", status := .available,
    decommissionedAt := none, createdAt := 0 }

/-- A sample state holding gSample and no pending codes. -/
def stSample : ApiState := { gadgets := [gSample], pendingCodes := [] }

/-- A sample state holding gSample and a pending self-destruct code. -/
def stPending : ApiState :=
  { gadgets := [gSample], pendingCodes := [("g1", "12345")] }

/-- A sample gadget in the terminal status Destroyed. -/
def gDestroyed : Gadget :=
  { id := "g1", name := "The Vortex", status := .destroyed,
    decommissionedAt := none, createdAt := 0 }

/-- A sample state holding gDestroyed. -/
def stDestroyed : ApiState := { gadgets := [gDestroyed], pendingCodes := [] }

/-- The empty state (fresh table, no pending codes). -/
def stEmpty : ApiState := { gadgets := [], pendingCodes := [] }

/-- The gadget a create from the empty table produces when the generator
draws noun index 0. -/
def gNightingale : Gadget :=
  { id := "id1", name := "The Nightingale", status := .available,
    decommissionedAt := none, createdAt := 0 }

/-- The gadget a second create produces when the generator draws noun
index 1. -/
def gKraken : Gadget :=
  { id := "id2", name := "The Kraken", status := .available,
    decommissionedAt := none, createdAt := 0 }

/-- The table after the first sample create. -/
def stOne : ApiState := { gadgets := [gNightingale], pendingCodes := [] }

/-- The table after the second sample create. -/
def stTwo : ApiState :=
  { gadgets := [gNightingale, gKraken], pendingCodes := [] }

/-- A found row's primary key equals the key it was found by. -/
theorem id_of_findByPk {st : ApiState} {id : String} {g : Gadget}
    (h : findByPk st id = some g) : g.id = id := by
  have := List.find?_some h
  simpa using this

/-- Saving an updated instance whose primary key is the searched key makes
findByPk return it. -/
theorem find?_replaceById {gs : List Gadget} {id : String} {g g' : Gadget}
    (h : gs.find? (fun x => x.id = id) = some g) (hg' : g'.id = id) :
    (replaceById gs id g').find? (fun x => x.id = id) = some g' := by
  induction gs with
  | nil => simp at h
  | cons a as ih =>
    by_cases ha : a.id = id
    · simp only [replaceById, List.map_cons, if_pos ha]
      exact List.find?_cons_of_pos _ (by simpa using hg')
    · simp only [replaceById, List.map_cons, if_neg ha]
      rw [List.find?_cons_of_neg _ (by simpa using ha)]
      rw [List.find?_cons_of_neg _ (by simpa using ha)] at h
      exact ih h

/-- Looking up the key just written returns the written code. -/
theorem getCode_setCode_self (ps : List (String × String)) (id code : String) :
    getCode (setCode ps id code) id = some code := by
  simp [getCode, setCode, List.find?_cons_of_pos]

/-- Deleting a key makes its lookup miss. -/
theorem getCode_removeCode_self (ps : List (String × String)) (id : String) :
    getCode (removeCode ps id) id = none := by
  have h : (removeCode ps id).find? (fun p => p.1 = id) = none := by
    rw [List.find?_eq_none]
    intro x hx
    have hne : x.1 ≠ id := by simpa using (List.mem_filter.mp hx).2
    simpa using hne
  simp [getCode, h]

/-- The update pipeline never touches the primary key. -/
theorem instanceUpdate_id (g : Gadget) (b : UpdateBody) (now : Nat) :
    (instanceUpdate g b now).id = g.id := by
  simp only [instanceUpdate, beforeUpdate, Gadget.setValues]
  split <;> try split
  all_goals rfl

/-- The update pipeline never touches the creation timestamp. -/
theorem instanceUpdate_createdAt (g : Gadget) (b : UpdateBody) (now : Nat) :
    (instanceUpdate g b now).createdAt = g.createdAt := by
  simp only [instanceUpdate, beforeUpdate, Gadget.setValues]
  split <;> try split
  all_goals rfl

/-- The status after an update is the supplied status when present, else the
old one (the hook only edits decommissionedAt). -/
theorem instanceUpdate_status (g : Gadget) (b : UpdateBody) (now : Nat) :
    (instanceUpdate g b now).status = b.status.getD g.status := by
  simp only [instanceUpdate, beforeUpdate, Gadget.setValues]
  split <;> try split
  all_goals rfl

/-- With no pending code for the id, confirm fails with 400 and changes
nothing. -/
theorem confirm_noCode {st : ApiState} {id : String} (code : String)
    (now : Nat) (h : getCode st.pendingCodes id = none) :
    confirmSelfDestruct st id code now = (.error .badRequest, st) := by
  simp [confirmSelfDestruct, h]

/-- With a pending code that differs from the supplied one, confirm fails
with 403 and changes nothing. -/
theorem confirm_mismatch {st : ApiState} {id code stored : String}
    (now : Nat) (h : getCode st.pendingCodes id = some stored)
    (hne : code ≠ stored) :
    confirmSelfDestruct st id code now = (.error .forbidden, st) := by
  simp [confirmSelfDestruct, h, hne]

/-- With a matching code but no such gadget, confirm fails with 404 and
changes nothing. -/
theorem confirm_noGadget {st : ApiState} {id code stored : String}
    (now : Nat) (h : getCode st.pendingCodes id = some stored)
    (heq : code = stored) (hg : findByPk st id = none) :
    confirmSelfDestruct st id code now = (.error .notFound, st) := by
  simp [confirmSelfDestruct, h, heq, hg]

/-- With a matching code and an existing gadget, confirm succeeds: the row
is saved with status Destroyed and the pending entry is deleted. -/
theorem confirm_success {st : ApiState} {id code stored : String}
    {g : Gadget} (now : Nat) (h : getCode st.pendingCodes id = some stored)
    (heq : code = stored) (hg : findByPk st id = some g) :
    confirmSelfDestruct st id code now =
      (.ok "Gadget self-destructed",
       { gadgets :=
           replaceById st.gadgets id
             (instanceUpdate g { status := some .destroyed } now),
         pendingCodes := removeCode st.pendingCodes id }) := by
  simp [confirmSelfDestruct, h, heq, hg]

/-- Every error branch of confirm returns the state untouched. -/
theorem confirm_error_frame (st : ApiState) (id code : String) (now : Nat)
    (e : ApiError) (h : (confirmSelfDestruct st id code now).1 = .error e) :
    (confirmSelfDestruct st id code now).2 = st := by
  rcases hc : getCode st.pendingCodes id with _ | stored
  · rw [confirm_noCode code now hc]
  · by_cases hne : code = stored
    · rcases hg : findByPk st id with _ | g
      · rw [confirm_noGadget now hc hne hg]
      · rw [confirm_success now hc hne hg] at h
        simp at h
    · rw [confirm_mismatch now hc hne]

/-- A successful codename from the retry loop is fresh (no stored gadget
bears it) and is one of the generator's outputs. -/
theorem generateUniqueCodename_fresh {fuel : Nat} {rand : Nat → Nat}
    {gs : List Gadget} {nm : String}
    (h : generateUniqueCodename fuel rand gs = some nm) :
    (∀ g ∈ gs, g.name ≠ nm) ∧ ∃ r, nm = generateCodename r := by
  induction fuel generalizing rand with
  | zero => simp [generateUniqueCodename] at h
  | succ fuel ih =>
    rw [generateUniqueCodename] at h
    by_cases hex : gs.any (fun g => g.name = generateCodename (rand 0)) = true
    · rw [if_pos hex] at h
      exact ih h
    · rw [if_neg hex] at h
      obtain rfl : generateCodename (rand 0) = nm := by simpa using h
      refine ⟨?_, rand 0, rfl⟩
      intro g hg hne
      exact hex (List.any_eq_true.mpr ⟨g, hg, by simpa using hne⟩)

/-- Every generated codename is "The " followed by a vocabulary noun. -/
theorem generateCodename_mem (r : Nat) :
    ∃ noun ∈ nouns, generateCodename r = "The " ++ noun := by
  have hlt : r % nouns.length < nouns.length :=
    Nat.mod_lt _ (by simp [nouns])
  refine ⟨nouns[r % nouns.length], List.getElem_mem hlt, ?_⟩
  simp [generateCodename, List.getD_eq_getElem?_getD,
    List.getElem?_eq_getElem hlt]

/-- What a successful create produces: an Available gadget with the given
id and creation time, bearing a fresh vocabulary codename, appended to the
table. -/
theorem createGadget_ok {st : ApiState} {fuel : Nat} {rand : Nat → Nat}
    {newId : String} {now : Nat} {b : UpdateBody} {g : Gadget}
    {st' : ApiState}
    (h : createGadget st fuel rand newId now b = (.ok g, st')) :
    g.status = .available ∧ g.id = newId ∧ g.createdAt = now
    ∧ (∃ noun ∈ nouns, g.name = "The " ++ noun)
    ∧ (∀ g0 ∈ st.gadgets, g0.name ≠ g.name)
    ∧ st'.gadgets = st.gadgets ++ [g] := by
  rcases hgen : generateUniqueCodename fuel rand st.gadgets with _ | nm
  · rw [createGadget, hgen] at h
    simp at h
  · rw [createGadget, hgen] at h
    obtain ⟨hg, hst⟩ : (⟨newId, nm, .available, none, now⟩ : Gadget) = g
        ∧ { st with gadgets := st.gadgets ++
              [(⟨newId, nm, .available, none, now⟩ : Gadget)] } = st' := by
      constructor
      · exact congrArg (fun p => p.1) h |> fun h1 => by
          simpa using h1
      · exact congrArg (fun p => p.2) h |> fun h2 => by
          simpa using h2
    obtain ⟨hfresh, r, hr⟩ := generateUniqueCodename_fresh hgen
    subst hg
    refine ⟨rfl, rfl, rfl, ?_, ?_, by rw [← hst]⟩
    · obtain ⟨noun, hmem, hnoun⟩ := generateCodename_mem r
      exact ⟨noun, hmem, by simpa [hr] using hnoun⟩
    · simpa using hfresh

/-- Joint case analysis of the beforeUpdate hook. -/
theorem beforeUpdate_spec (now : Nat) (g : Gadget) :
    (beforeUpdate now g).status = g.status
    ∧ (g.status = .decommissioned → g.decommissionedAt = none →
        (beforeUpdate now g).decommissionedAt = some now)
    ∧ (g.status = .decommissioned → g.decommissionedAt ≠ none →
        (beforeUpdate now g).decommissionedAt = g.decommissionedAt)
    ∧ (g.status ≠ .decommissioned →
        (beforeUpdate now g).decommissionedAt = none) := by
  unfold beforeUpdate
  split_ifs with h1 h2
  · exact ⟨rfl, fun _ _ => rfl, fun _ hne => absurd h1.2 hne,
      fun hne => absurd h1.1 hne⟩
  · refine ⟨rfl, ?_, ?_, fun _ => rfl⟩
    · intro hs _; exact absurd hs h2
    · intro hs _; exact absurd hs h2
  · push_neg at h1 h2
    refine ⟨rfl, ?_, fun _ _ => rfl, fun hne => absurd h2 hne⟩
    intro hs hda; exact absurd hda (h1 hs)

/-- The instance update performed by the DELETE route's
update({ status, decommissionedAt }) call: both supplied values stick (the
hook leaves a truthy decommissionedAt alone). -/
theorem instanceUpdate_decommissionBody (g : Gadget) (now : Nat) :
    instanceUpdate g
      { status := some .decommissioned, decommissionedAt := some (some now) }
      now =
    { g with status := .decommissioned, decommissionedAt := some now } := by
  simp [instanceUpdate, beforeUpdate, Gadget.setValues]

/-- The instance update performed by the confirm route's
update({ status: 'Destroyed' }) call: status becomes Destroyed and the hook
nulls decommissionedAt (status differs from Decommissioned). -/
theorem instanceUpdate_destroyBody (g : Gadget) (now : Nat) :
    instanceUpdate g { status := some .destroyed } now =
    { g with status := .destroyed, decommissionedAt := none } := by
  simp [instanceUpdate, beforeUpdate, Gadget.setValues]

/-- Appending rows cannot hide a search miss on the left part. -/
theorem find?_append_of_none {α : Type} {p : α → Bool} {l1 : List α}
    (l2 : List α) (h : l1.find? p = none) :
    (l1 ++ l2).find? p = l2.find? p := by
  rw [List.find?_append, h, Option.none_or]

/-- What DELETE /gadgets/:id does on a hit: saves the row with status
Decommissioned and decommissionedAt set to the call's clock reading. -/
theorem decommission_found {st : ApiState} {id : String} {g : Gadget}
    (now : Nat) (h : findByPk st id = some g) :
    decommissionGadget st id now =
      (.ok "Gadget decommissioned",
       { st with
         gadgets := replaceById st.gadgets id
                      { g with
                        status := .decommissioned,
                        decommissionedAt := some now } }) := by
  simp [decommissionGadget, h, instanceUpdate_decommissionBody]

/-- C1: ConfirmSelfDestruct checks its failure conditions in order — 400
when no pending code exists for the id, else 403 when the supplied code
differs from the pending one, else 404 when no gadget with the id exists —
and on full success it sets the gadget's status to Destroyed, removes the
pending entry for the id (so an immediately repeated confirm with the same
code fails with 400), and returns success. -/
theorem confirmSelfDestruct_check_order_and_success (st : ApiState)
    (id code : String) (now now2 : Nat) :
    (getCode st.pendingCodes id = none →
      confirmSelfDestruct st id code now = (.error .badRequest, st))
    ∧ (∀ stored, getCode st.pendingCodes id = some stored → code ≠ stored →
        confirmSelfDestruct st id code now = (.error .forbidden, st))
    ∧ (∀ stored, getCode st.pendingCodes id = some stored → code = stored →
        findByPk st id = none →
        confirmSelfDestruct st id code now = (.error .notFound, st))
    ∧ (∀ stored g, getCode st.pendingCodes id = some stored →
        code = stored → findByPk st id = some g →
        (confirmSelfDestruct st id code now).1 = .ok "Gadget self-destructed"
        ∧ findByPk (confirmSelfDestruct st id code now).2 id =
            some { g with status := .destroyed, decommissionedAt := none }
        ∧ getCode (confirmSelfDestruct st id code now).2.pendingCodes id = none
        ∧ confirmSelfDestruct (confirmSelfDestruct st id code now).2 id code
            now2 = (.error .badRequest,
                    (confirmSelfDestruct st id code now).2)) := by
  refine ⟨confirm_noCode code now,
    fun stored h hne => confirm_mismatch now h hne,
    fun stored h heq hg => confirm_noGadget now h heq hg,
    fun stored g h heq hg => ?_⟩
  have hid : g.id = id := id_of_findByPk hg
  rw [confirm_success now h heq hg, instanceUpdate_destroyBody]
  refine ⟨rfl, ?_, getCode_removeCode_self _ _, ?_⟩
  · exact find?_replaceById hg hid
  · exact confirm_noCode code now2 (getCode_removeCode_self _ _)

/-- C1 witness: in a state with gadget g1 and pending code 12345, confirm
with 12345 succeeds, destroys the gadget, clears the code, and a repeated
confirm fails with 400. -/
theorem confirmSelfDestruct_check_order_and_success_witness :
    (confirmSelfDestruct stPending "g1" "12345" 7).1 =
        .ok "Gadget self-destructed"
    ∧ findByPk (confirmSelfDestruct stPending "g1" "12345" 7).2 "g1" =
        some { gSample with status := .destroyed, decommissionedAt := none }
    ∧ getCode (confirmSelfDestruct stPending "g1" "12345" 7).2.pendingCodes
        "g1" = none
    ∧ confirmSelfDestruct (confirmSelfDestruct stPending "g1" "12345" 7).2
        "g1" "12345" 8 =
        (.error .badRequest, (confirmSelfDestruct stPending "g1" "12345" 7).2) :=
  (confirmSelfDestruct_check_order_and_success stPending "g1" "12345" 7
    8).2.2.2 "12345" gSample rfl rfl rfl

/-- C2 counterexample: decommissioning the same gadget at clock reading 1
and then at clock reading 2 leaves the timestamp at 2, not at the value 1
the first call set — so the second call does not leave the timestamp
unchanged. -/
theorem decommission_second_call_overwrites_timestamp :
    (findByPk (decommissionGadget stSample "g1" 1).2 "g1").map
        Gadget.decommissionedAt = some (some 1)
    ∧ (findByPk (decommissionGadget
          (decommissionGadget stSample "g1" 1).2 "g1" 2).2 "g1").map
        Gadget.decommissionedAt = some (some 2)
    ∧ (some (some 2) : Option (Option Nat)) ≠ some (some 1) :=
  ⟨rfl, rfl, by decide⟩

/-- C2 amended: for all valid gadget ids, calling Decommission twice leaves
status Decommissioned with a non-null timestamp, but each call overwrites
the timestamp with its own current time: after the second call it holds the
second call's clock reading (it is unchanged only when both calls observe
the same clock value). -/
theorem decommission_twice_overwrites (st : ApiState) (id : String)
    (t1 t2 : Nat) (g : Gadget) (h : findByPk st id = some g) :
    findByPk (decommissionGadget st id t1).2 id =
      some { g with status := .decommissioned, decommissionedAt := some t1 }
    ∧ findByPk (decommissionGadget
        (decommissionGadget st id t1).2 id t2).2 id =
      some { g with status := .decommissioned, decommissionedAt := some t2 } := by
  have hid : g.id = id := id_of_findByPk h
  have h1 : findByPk (decommissionGadget st id t1).2 id =
      some { g with status := .decommissioned, decommissionedAt := some t1 } := by
    rw [decommission_found t1 h]
    exact find?_replaceById h hid
  refine ⟨h1, ?_⟩
  rw [decommission_found t2 h1]
  exact find?_replaceById h1 hid

/-- C2 amended witness: the sample gadget decommissioned at readings 1 then
2 ends Decommissioned with timestamp 2. -/
theorem decommission_twice_overwrites_witness :
    findByPk (decommissionGadget stSample "g1" 1).2 "g1" =
      some { gSample with status := .decommissioned,
                          decommissionedAt := some 1 }
    ∧ findByPk (decommissionGadget
        (decommissionGadget stSample "g1" 1).2 "g1" 2).2 "g1" =
      some { gSample with status := .decommissioned,
                          decommissionedAt := some 2 } :=
  decommission_twice_overwrites stSample "g1" 1 2 gSample rfl

/-- C3: for every existing gadget and every Update call (whose body does
not itself carry a decommissionedAt entry — the spec's Update supplies name
and/or status), the route answers with the updated record; if the updated
status is Decommissioned and no timestamp was set, the timestamp becomes
the current time, hence is non-null; if the updated status is anything
else, the timestamp is cleared to null. -/
theorem patchGadget_timestamp_rule (st : ApiState) (id : String)
    (b : UpdateBody) (now : Nat) (g : Gadget)
    (hfind : findByPk st id = some g) (hb : b.decommissionedAt = none) :
    (patchGadget st id b now).1 = .ok (instanceUpdate g b now)
    ∧ ((instanceUpdate g b now).status = .decommissioned →
        g.decommissionedAt = none →
        (instanceUpdate g b now).decommissionedAt = some now)
    ∧ ((instanceUpdate g b now).status = .decommissioned →
        (instanceUpdate g b now).decommissionedAt ≠ none)
    ∧ ((instanceUpdate g b now).status ≠ .decommissioned →
        (instanceUpdate g b now).decommissionedAt = none) := by
  have hset : (g.setValues b).decommissionedAt = g.decommissionedAt := by
    simp [Gadget.setValues, hb]
  have hstat : (instanceUpdate g b now).status = (g.setValues b).status :=
    (beforeUpdate_spec now (g.setValues b)).1
  refine ⟨by rw [patchGadget, hfind], ?_, ?_, ?_⟩
  · intro hdec hda
    have := (beforeUpdate_spec now (g.setValues b)).2.1
      (hstat ▸ hdec) (hset.trans hda)
    exact this
  · intro hdec
    rcases hda : (g.setValues b).decommissionedAt with _ | t
    · have h2 : (instanceUpdate g b now).decommissionedAt = some now :=
        (beforeUpdate_spec now (g.setValues b)).2.1 (hstat ▸ hdec) hda
      simp [h2]
    · have h2 : (instanceUpdate g b now).decommissionedAt = some t :=
        ((beforeUpdate_spec now (g.setValues b)).2.2.1 (hstat ▸ hdec)
          (by rw [hda]; simp)).trans hda
      simp [h2]
  · intro hne
    exact (beforeUpdate_spec now (g.setValues b)).2.2.2 (hstat ▸ hne)

/-- C3 witness: patching the sample gadget to Decommissioned sets the
timestamp to the call's clock reading 9; the updated status is
Decommissioned and the timestamp is non-null. -/
theorem patchGadget_timestamp_rule_witness :
    (patchGadget stSample "g1" { status := some .decommissioned } 9).1 =
      .ok (instanceUpdate gSample { status := some .decommissioned } 9)
    ∧ (instanceUpdate gSample { status := some .decommissioned } 9
        ).decommissionedAt = some 9 := by
  have h := patchGadget_timestamp_rule stSample "g1"
    { status := some .decommissioned } 9 gSample rfl rfl
  exact ⟨h.1, h.2.1 (by simp [instanceUpdate_status]) rfl⟩

/-- C4 counterexample: Decommission — an operation distinct from the
generic Update — also transitions a gadget out of the terminal status
Destroyed: on a Destroyed gadget it succeeds and sets status
Decommissioned, so it is not true that no operation other than Update
leaves Destroyed. -/
theorem decommission_leaves_destroyed :
    gDestroyed.status = .destroyed
    ∧ (decommissionGadget stDestroyed "g1" 5).1 = .ok "Gadget decommissioned"
    ∧ (findByPk (decommissionGadget stDestroyed "g1" 5).2 "g1").map
        Gadget.status = some .decommissioned
    ∧ GStatus.decommissioned ≠ GStatus.destroyed :=
  ⟨rfl, rfl, rfl, by decide⟩

/-- C4 amended: the terminal status Destroyed is not guarded by any
operation: for every gadget whose status is Destroyed, the generic Update
with a body containing any other valid status succeeds and sets the gadget
to that status, and Decommission also succeeds on it, setting status
Decommissioned. -/
theorem destroyed_not_guarded (st : ApiState) (id : String) (g : Gadget)
    (b : UpdateBody) (s : GStatus) (now : Nat)
    (hfind : findByPk st id = some g) (_hst : g.status = .destroyed)
    (hb : b.status = some s) (_hs : s ≠ .destroyed) :
    (patchGadget st id b now).1 = .ok (instanceUpdate g b now)
    ∧ (instanceUpdate g b now).status = s
    ∧ findByPk (patchGadget st id b now).2 id = some (instanceUpdate g b now)
    ∧ (decommissionGadget st id now).1 = .ok "Gadget decommissioned"
    ∧ (findByPk (decommissionGadget st id now).2 id).map Gadget.status =
        some .decommissioned := by
  have hid : g.id = id := id_of_findByPk hfind
  have hid2 : (instanceUpdate g b now).id = id :=
    (instanceUpdate_id g b now).trans hid
  refine ⟨by rw [patchGadget, hfind], ?_, ?_, ?_, ?_⟩
  · rw [instanceUpdate_status, hb]; rfl
  · rw [patchGadget, hfind]
    exact find?_replaceById hfind hid2
  · rw [decommission_found now hfind]
  · have h2 : findByPk (decommissionGadget st id now).2 id =
        some { g with status := .decommissioned,
                      decommissionedAt := some now } := by
      rw [decommission_found now hfind]
      exact find?_replaceById hfind hid
    rw [h2]
    rfl

/-- C4 amended witness: on the sample Destroyed gadget, Update with status
Deployed succeeds and sets Deployed, and Decommission succeeds and sets
Decommissioned. -/
theorem destroyed_not_guarded_witness :
    (patchGadget stDestroyed "g1" { status := some .deployed } 3).1 =
      .ok (instanceUpdate gDestroyed { status := some .deployed } 3)
    ∧ (instanceUpdate gDestroyed { status := some .deployed } 3).status =
        .deployed
    ∧ findByPk (patchGadget stDestroyed "g1"
        { status := some .deployed } 3).2 "g1" =
        some (instanceUpdate gDestroyed { status := some .deployed } 3)
    ∧ (decommissionGadget stDestroyed "g1" 3).1 = .ok "Gadget decommissioned"
    ∧ (findByPk (decommissionGadget stDestroyed "g1" 3).2 "g1").map
        Gadget.status = some .decommissioned :=
  destroyed_not_guarded stDestroyed "g1" gDestroyed
    { status := some .deployed } .deployed 3 rfl rfl rfl (by decide)

/-- C5: Create ignores any user-supplied body; on success it returns a
gadget with status Available whose codename has the form "The [Noun]" with
the noun from the fixed vocabulary, differing from the name of every gadget
already stored, appended to the table; name-uniqueness of the table is
preserved, and two successful sequential creates return distinct names. -/
theorem createGadget_unique_names (st : ApiState) (fuel : Nat)
    (rand : Nat → Nat) (newId : String) (now : Nat) (b b2 : UpdateBody) :
    createGadget st fuel rand newId now b =
      createGadget st fuel rand newId now b2
    ∧ (∀ g st', createGadget st fuel rand newId now b = (.ok g, st') →
        g.status = .available
        ∧ (∃ noun ∈ nouns, g.name = "The " ++ noun)
        ∧ (∀ g0 ∈ st.gadgets, g0.name ≠ g.name)
        ∧ st'.gadgets = st.gadgets ++ [g]
        ∧ ((st.gadgets.map Gadget.name).Nodup →
            (st'.gadgets.map Gadget.name).Nodup))
    ∧ (∀ fuel2 rand2 newId2 now2 b3 g1 st1 g2 st2,
        createGadget st fuel rand newId now b = (.ok g1, st1) →
        createGadget st1 fuel2 rand2 newId2 now2 b3 = (.ok g2, st2) →
        g1.name ≠ g2.name) := by
  refine ⟨rfl, ?_, ?_⟩
  · intro g st' h
    obtain ⟨hstat, _, _, hnoun, hfresh, happ⟩ := createGadget_ok h
    refine ⟨hstat, hnoun, hfresh, happ, ?_⟩
    intro hnd
    rw [happ, List.map_append, List.nodup_append]
    refine ⟨hnd, by simp, ?_⟩
    intro x hx
    obtain ⟨g0, hg0, rfl⟩ := List.mem_map.mp hx
    simp [hfresh g0 hg0]
  · intro fuel2 rand2 newId2 now2 b3 g1 st1 g2 st2 h1 h2
    obtain ⟨_, _, _, _, _, happ1⟩ := createGadget_ok h1
    obtain ⟨_, _, _, _, hfresh2, _⟩ := createGadget_ok h2
    have hg1 : g1 ∈ st1.gadgets := by
      rw [happ1]; exact List.mem_append_right _ (by simp)
    exact hfresh2 g1 hg1

/-- C5 witness: from the empty table, a create drawing noun 0 yields
"The Nightingale"; a second create drawing noun 1 yields "The Kraken";
the two names differ. -/
theorem createGadget_unique_names_witness :
    gNightingale.name ≠ gKraken.name :=
  (createGadget_unique_names stEmpty 1 (fun _ => 0) "id1" 0 {} {}).2.2
    1 (fun _ => 1) "id2" 0 {} gNightingale stOne gKraken stTwo rfl rfl

/-- C6: GenerateSelfDestructCode answers 404 when no gadget with the id
exists; otherwise it produces the decimal rendering of an integer in
[10000, 99999], stores it in the pending-code map under the gadget id —
overwriting any previously pending code for that id — and returns it. -/
theorem generateSelfDestructCode_spec (st : ApiState) (id : String)
    (rand : Nat) :
    (findByPk st id = none →
      generateSelfDestructCode st id rand = (.error .notFound, st))
    ∧ (∀ g, findByPk st id = some g →
        10000 ≤ rand % 90000 + 10000
        ∧ rand % 90000 + 10000 ≤ 99999
        ∧ generateSelfDestructCode st id rand =
            (.ok (toString (rand % 90000 + 10000)),
             { st with pendingCodes := setCode st.pendingCodes id (toString (rand % 90000 + 10000)) })
        ∧ getCode (generateSelfDestructCode st id rand).2.pendingCodes id =
            some (toString (rand % 90000 + 10000))) := by
  constructor
  · intro h
    simp [generateSelfDestructCode, h]
  · intro g h
    have hlt : rand % 90000 < 90000 := Nat.mod_lt _ (by norm_num)
    refine ⟨by omega, by omega, by simp [generateSelfDestructCode, h], ?_⟩
    simp only [generateSelfDestructCode, h]
    exact getCode_setCode_self _ _ _

/-- C6 witness: on the sample state, draw 123456 produces code "43456"
(43456 = 123456 mod 90000 + 10000, inside [10000, 99999], a 5-character
decimal string), stored under the gadget id and returned. -/
theorem generateSelfDestructCode_spec_witness :
    generateSelfDestructCode stSample "g1" 123456 =
      (.ok (toString (123456 % 90000 + 10000)),
       { stSample with pendingCodes := setCode stSample.pendingCodes "g1" (toString (123456 % 90000 + 10000)) })
    ∧ getCode (generateSelfDestructCode stSample "g1" 123456).2.pendingCodes
        "g1" = some (toString (123456 % 90000 + 10000))
    ∧ toString (123456 % 90000 + 10000) = "43456"
    ∧ ("43456" : String).length = 5 := by
  have h := (generateSelfDestructCode_spec stSample "g1" 123456).2 gSample rfl
  exact ⟨h.2.2.1, h.2.2.2, by decide, by decide⟩

/-- C7: Update applies only the supplied name and/or status changes (plus
the automatic decommissionedAt rule): for every Update of an existing
gadget, the route answers with the updated record, whose id and creation
time equal the old ones — even when the request body carries entries for
id or createdAt. -/
theorem patchGadget_frame (st : ApiState) (id : String) (b : UpdateBody)
    (now : Nat) (g : Gadget) (hfind : findByPk st id = some g) :
    (patchGadget st id b now).1 = .ok (instanceUpdate g b now)
    ∧ (instanceUpdate g b now).id = g.id
    ∧ (instanceUpdate g b now).createdAt = g.createdAt := by
  exact ⟨by rw [patchGadget, hfind], instanceUpdate_id g b now,
    instanceUpdate_createdAt g b now⟩

/-- A hostile update body carrying entries for the protected attributes id
and createdAt besides name and status. -/
def bHostile : UpdateBody :=
  { id := some "evil", name := some "The Shadow", status := some .deployed,
    createdAt := some 99 }

/-- C7 witness: patching the sample gadget with a body that also carries
id and createdAt entries leaves id and creation time unchanged. -/
theorem patchGadget_frame_witness :
    (patchGadget stSample "g1" bHostile 3).1 =
      .ok (instanceUpdate gSample bHostile 3)
    ∧ (instanceUpdate gSample bHostile 3).id = gSample.id
    ∧ (instanceUpdate gSample bHostile 3).createdAt = gSample.createdAt :=
  patchGadget_frame stSample "g1" bHostile 3 gSample rfl

/-- C8: a confirm whose supplied code differs from the pending code for
that id fails with 403 and performs no write: the whole state — in
particular every field of every gadget — is returned unchanged. -/
theorem confirm_mismatch_no_write (st : ApiState) (id code stored : String)
    (now : Nat) (h : getCode st.pendingCodes id = some stored)
    (hne : code ≠ stored) :
    confirmSelfDestruct st id code now = (.error .forbidden, st)
    ∧ (confirmSelfDestruct st id code now).2.gadgets = st.gadgets := by
  refine ⟨confirm_mismatch now h hne, ?_⟩
  rw [confirm_mismatch now h hne]

/-- C8 witness: a wrong guess against the sample pending code 12345 yields
403 and leaves the state — and its gadget list — untouched. -/
theorem confirm_mismatch_no_write_witness :
    confirmSelfDestruct stPending "g1" "99999" 4 =
      (.error .forbidden, stPending)
    ∧ (confirmSelfDestruct stPending "g1" "99999" 4).2.gadgets =
        stPending.gadgets :=
  confirm_mismatch_no_write stPending "g1" "99999" "12345" 4 rfl (by decide)

/-- C9: Register stores a hash of the supplied password and never the
plaintext: a successful Register appends a user whose stored password
column is the hash of the supplied password (which differs from the
supplied string itself), and a Login for that username afterwards succeeds
exactly when the supplied password matches the stored hash under the
compare function. -/
theorem registerUser_hashes_password (st : AuthState)
    (username password : String) (newId : Nat)
    (hfree : st.users.any (fun u => u.username = username) = false) :
    registerUser st username password newId =
      (.ok "User created",
       { users := st.users ++
           [{ id := newId, username := username,
              password := bcryptHash password }] })
    ∧ findUser (registerUser st username password newId).2 username =
        some { id := newId, username := username,
               password := bcryptHash password }
    ∧ bcryptHash password ≠ password
    ∧ (∀ p, loginUser (registerUser st username password newId).2 username p
          = .ok newId
        ↔ bcryptCompare p (bcryptHash password) = true) := by
  have hreg : registerUser st username password newId =
      (.ok "User created",
       { users := st.users ++
           [{ id := newId, username := username,
              password := bcryptHash password }] }) := by
    rw [registerUser, hfree]
    rfl
  have hnone : st.users.find? (fun u => u.username = username) = none := by
    rw [List.find?_eq_none]
    intro u hu hup
    have : st.users.any (fun u => u.username = username) = true :=
      List.any_eq_true.mpr ⟨u, hu, hup⟩
    rw [hfree] at this
    cases this
  have hfindu : findUser (registerUser st username password newId).2
      username =
      some { id := newId, username := username,
             password := bcryptHash password } := by
    rw [hreg]
    unfold findUser
    rw [find?_append_of_none _ hnone]
    exact List.find?_cons_of_pos _ (by simp)
  have hlen : bcryptHash password ≠ password := by
    intro hcontra
    have := congrArg String.length hcontra
    have h7 : ("$2b$10$" : String).length = 7 := rfl
    rw [bcryptHash, String.length_append, h7] at this
    omega
  refine ⟨hreg, hfindu, hlen, ?_⟩
  intro p
  rw [loginUser, hfindu]
  by_cases hc : bcryptCompare p (bcryptHash password) = true
  · simp [hc]
  · simp [hc]

/-- C9 witness: registering agent007 with password "secret" stores its
hash, which is not the plaintext; logging in with "secret" succeeds (the
compare accepts it) and logging in with "wrong" fails (the compare rejects
it). -/
theorem registerUser_hashes_password_witness :
    bcryptHash "secret" ≠ "secret"
    ∧ (loginUser (registerUser { users := [] } "agent007" "secret" 1).2
          "agent007" "secret" = .ok 1
        ↔ bcryptCompare "secret" (bcryptHash "secret") = true)
    ∧ (loginUser (registerUser { users := [] } "agent007" "secret" 1).2
          "agent007" "wrong" = .ok 1
        ↔ bcryptCompare "wrong" (bcryptHash "secret") = true) := by
  have h := registerUser_hashes_password { users := [] } "agent007"
    "secret" 1 rfl
  exact ⟨h.2.2.1, h.2.2.2 "secret", h.2.2.2 "wrong"⟩

/-- C10: a failed confirm does not consume the pending code: every error
outcome returns the state — hence the pending-code map — unchanged, any
number of wrong guesses folded over the state leave it unchanged, and a
subsequent confirm with the pending code of an existing gadget still
succeeds. -/
theorem confirm_failure_preserves_pending (st : ApiState) (id : String)
    (now : Nat) :
    (∀ code e, (confirmSelfDestruct st id code now).1 = .error e →
        (confirmSelfDestruct st id code now).2 = st)
    ∧ (∀ stored codes, getCode st.pendingCodes id = some stored →
        (∀ c ∈ codes, c ≠ stored) → confirmMany st id codes now = st)
    ∧ (∀ stored g, getCode st.pendingCodes id = some stored →
        findByPk st id = some g →
        (confirmSelfDestruct st id stored now).1 =
          .ok "Gadget self-destructed") := by
  refine ⟨fun code e => confirm_error_frame st id code now e, ?_, ?_⟩
  · intro stored codes hst
    induction codes with
    | nil => intro _; rfl
    | cons c cs ih =>
      intro hall
      have h2 : (confirmSelfDestruct st id c now).2 = st := by
        rw [confirm_mismatch now hst (hall c (by simp))]
      show confirmMany (confirmSelfDestruct st id c now).2 id cs now = st
      rw [h2]
      exact ih (fun x hx => hall x (by simp [hx]))
  · intro stored g hst hg
    rw [confirm_success now hst rfl hg]

/-- C10 witness: two wrong guesses against the sample pending code leave
the state unchanged, and the correct code then still destroys the gadget. -/
theorem confirm_failure_preserves_pending_witness :
    confirmMany stPending "g1" ["00000", "11111"] 3 = stPending
    ∧ (confirmSelfDestruct stPending "g1" "12345" 3).1 =
        .ok "Gadget self-destructed" :=
  ⟨(confirm_failure_preserves_pending stPending "g1" 3).2.1 "12345"
      ["00000", "11111"] rfl (by decide),
   (confirm_failure_preserves_pending stPending "g1" 3).2.2 "12345" gSample
      rfl rfl⟩

end IMF
